import Mathlib

/-!
Shallow embedding of the `coconuts` NEAR contract (`src/lib.rs`).

Modelling conventions:
- `u64`/`u128` values are `Nat`s; the checked operations (`checked_add`,
  `checked_mul`, `checked_sub`) test against the 128-bit bound exactly as the
  Rust standard library does, and `saturating_sub` is `Nat` truncated
  subtraction.
- The raw `+=` on line 163/165 of the source is an unchecked addition; the
  contract is compiled for the wasm release profile, where plain integer
  addition wraps, so it is modelled as addition modulo `2 ^ 128`.
- `env::block_index()` and `env::signer_account_id()` are host inputs fixed
  for the whole call; they are threaded as explicit parameters.
- `env::panic` / failed `assert!` / `.expect` abort the NEAR transaction and
  revert every storage write made during the call, so each operation is a
  function `Coconuts → Except Err _`: an `.error` result means the call
  aborted and the persisted state is the pre-call state (tentative writes
  that the source performs before a later panic are discarded, exactly as
  the runtime rolls them back).
- The two `LookupMap`s are total functions into `Option`.
-/

abbrev AccountId := String

abbrev CitizenId := Nat

/-- Bound of the Rust `u128` type. -/
def U128_MAX : Nat := 2 ^ 128 - 1

/-- Bound of the Rust `u64` type (`u64::max_value()`). -/
def U64_MAX : Nat := 2 ^ 64 - 1

/-- Rust `u128::checked_add`. -/
def u128_checked_add (a b : Nat) : Option Nat :=
  if a + b ≤ U128_MAX then some (a + b) else none

/-- Rust `u128::checked_mul`. -/
def u128_checked_mul (a b : Nat) : Option Nat :=
  if a * b ≤ U128_MAX then some (a * b) else none

/-- Rust `u128::checked_sub`. -/
def u128_checked_sub (a b : Nat) : Option Nat :=
  if b ≤ a then some (a - b) else none

/-- Rust `u128::saturating_sub`: truncated subtraction on `Nat`. -/
def u128_saturating_sub (a b : Nat) : Nat := a - b

/-- The unchecked `+=` of the wasm release build: wraps modulo `2 ^ 128`. -/
def u128_wrapping_add (a b : Nat) : Nat := (a + b) % (2 ^ 128)

/-- Every distinct `env::panic` / failed assertion / `.expect` in the source. -/
inductive Err where
  | accountAlreadyExists
  | citizenSlotTaken
  | signerNotCitizen
  | destNotCitizen
  | accountNotCitizen
  | accountDoesNotExist
  | insufficientBalance
  | overflowReceiver
  | overflow
  | idSpaceExhausted
  | clockAssert
  | brownAssert
deriving DecidableEq

/-- The `Adjustments` struct: cumulative transfer counters. -/
structure Adjustments where
  sent : Nat
  received : Nat
deriving DecidableEq

/-- The `Citizen` struct. -/
structure Citizen where
  init_block_index : Nat
  coconut_tree_count : Nat
  young_coconut_adjustments : Adjustments
deriving DecidableEq

/-- The `Coconuts` contract state: two lookup maps plus the id counter. -/
structure Coconuts where
  accounts : AccountId → Option CitizenId
  citizens : CitizenId → Option Citizen
  next_citizen_id : Nat

def INITIAL_COCONUTS : Nat := 0

/-- Young coconuts generated each block, per tree. -/
def COCONUTS_PER_BLOCK : Nat := 1

/-- Blocks until a young coconut becomes a brown coconut. -/
def COCONUT_MATURATION_BLOCKS : Nat := 10

/-- `Citizen::default()`; `env::block_index()` is passed as `now`. -/
def Citizen.default (now : Nat) : Citizen :=
  { init_block_index := now
    coconut_tree_count := 1
    young_coconut_adjustments := { sent := 0, received := 0 } }

/-- `Citizen::baseline_coconuts`, with the clock explicit. -/
def Citizen.baseline_coconuts (c : Citizen) (block_index : Nat) : Except Err Nat :=
  if block_index < c.init_block_index then .error .clockAssert
  else
    let diff_block_index := block_index - c.init_block_index
    match u128_checked_mul diff_block_index c.coconut_tree_count with
    | none => .error .overflow
    | some m1 =>
      match u128_checked_mul m1 COCONUTS_PER_BLOCK with
      | none => .error .overflow
      | some coconuts_since_init =>
        match u128_checked_add INITIAL_COCONUTS coconuts_since_init with
        | none => .error .overflow
        | some r => .ok r

/-- `Citizen::brown_coconut_balance`. -/
def Citizen.brown_coconut_balance (c : Citizen) (block_index : Nat) : Except Err Nat :=
  match c.baseline_coconuts block_index with
  | .error e => .error e
  | .ok baseline_coconuts =>
    match u128_checked_mul (u128_saturating_sub baseline_coconuts COCONUT_MATURATION_BLOCKS)
        COCONUTS_PER_BLOCK with
    | none => .error .overflow
    | some r => .ok r

/-- `Citizen::young_coconut_balance`. -/
def Citizen.young_coconut_balance (c : Citizen) (block_index : Nat) : Except Err Nat :=
  match c.baseline_coconuts block_index with
  | .error e => .error e
  | .ok baseline_coconuts =>
    match c.brown_coconut_balance block_index with
    | .error e => .error e
    | .ok brown =>
      if brown ≤ baseline_coconuts then
        match u128_checked_sub baseline_coconuts brown with
        | none => .error .overflow
        | some r => .ok r
      else .error .brownAssert

/-- `Coconuts::default()` (the storage prefixes of the maps are dropped). -/
def Coconuts.default : Coconuts :=
  { accounts := fun _ => none
    citizens := fun _ => none
    next_citizen_id := 0 }

/-- `Coconuts::is_citizen`. -/
def Coconuts.is_citizen (s : Coconuts) (account_id : AccountId) : Except Err Bool :=
  match s.accounts account_id with
  | some citizen_id =>
    if (s.citizens citizen_id).isSome then .ok true else .error .citizenSlotTaken
  | none => .ok false

/-- The private `Coconuts::citizen` load helper. -/
def Coconuts.citizen (s : Coconuts) (account_id : AccountId) : Except Err Citizen :=
  match s.accounts account_id with
  | some citizen_id =>
    match s.citizens citizen_id with
    | some account => .ok account
    | none => .error .accountNotCitizen
  | none => .error .accountDoesNotExist

/-- The private `Coconuts::set_citizen` store helper. -/
def Coconuts.set_citizen (s : Coconuts) (account_id : AccountId) (citizen : Citizen) :
    Except Err Coconuts :=
  match s.accounts account_id with
  | some citizen_id =>
    .ok { s with citizens := fun i => if i = citizen_id then some citizen else s.citizens i }
  | none => .error .accountDoesNotExist

/-- `Coconuts::signer_create_citizen`; the signer account and the clock are
host inputs passed explicitly.  The source inserts into both maps before the
`next_citizen_id < u64::max_value()` assertion; a failed assertion reverts
those inserts, so the error branch discards them. -/
def Coconuts.signer_create_citizen (s : Coconuts) (signer : AccountId) (now : Nat) :
    Except Err Coconuts :=
  match s.is_citizen signer with
  | .error e => .error e
  | .ok true => .error .accountAlreadyExists
  | .ok false =>
    let new_citizen_id := s.next_citizen_id
    if (s.citizens new_citizen_id).isSome then .error .citizenSlotTaken
    else
      let new_citizen := Citizen.default now
      let s1 : Coconuts :=
        { s with
          citizens := fun i => if i = new_citizen_id then some new_citizen else s.citizens i
          accounts := fun k => if k = signer then some new_citizen_id else s.accounts k }
      if s1.next_citizen_id < U64_MAX then
        .ok { s1 with next_citizen_id := s1.next_citizen_id + 1 }
      else .error .idSpaceExhausted

/-- The private `Coconuts::transfer_young_coconuts` helper (the public
`signer_transfer_young_coconuts` delegates to it with the signer as
`account_id_from`).  The two `+=` updates follow the source exactly:
`sent += sent.checked_add(qty).expect(..)` is a checked inner addition
followed by an unchecked (wrapping) outer addition, and likewise for
`received`. -/
def Coconuts.transfer_young_coconuts (s : Coconuts)
    (account_id_from account_id_to : AccountId) (qty now : Nat) : Except Err Coconuts :=
  match s.is_citizen account_id_from with
  | .error e => .error e
  | .ok false => .error .signerNotCitizen
  | .ok true =>
  match s.is_citizen account_id_to with
  | .error e => .error e
  | .ok false => .error .destNotCitizen
  | .ok true =>
  match s.citizen account_id_from with
  | .error e => .error e
  | .ok citizen_from =>
  match s.citizen account_id_to with
  | .error e => .error e
  | .ok citizen_to =>
  match citizen_from.young_coconut_balance now with
  | .error e => .error e
  | .ok balance_from =>
  match citizen_to.young_coconut_balance now with
  | .error e => .error e
  | .ok balance_to =>
  if (u128_checked_sub balance_from qty).isNone then .error .insufficientBalance
  else if (u128_checked_add balance_to qty).isNone then .error .overflowReceiver
  else
  match u128_checked_add citizen_from.young_coconut_adjustments.sent qty with
  | none => .error .overflow
  | some sent_step =>
  let citizen_from1 : Citizen :=
    { citizen_from with
      young_coconut_adjustments :=
        { citizen_from.young_coconut_adjustments with
          sent := u128_wrapping_add citizen_from.young_coconut_adjustments.sent sent_step } }
  match u128_checked_add citizen_to.young_coconut_adjustments.received qty with
  | none => .error .overflow
  | some received_step =>
  let citizen_to1 : Citizen :=
    { citizen_to with
      young_coconut_adjustments :=
        { citizen_to.young_coconut_adjustments with
          received := u128_wrapping_add citizen_to.young_coconut_adjustments.received
            received_step } }
  match s.set_citizen account_id_from citizen_from1 with
  | .error e => .error e
  | .ok s1 =>
  s1.set_citizen account_id_to citizen_to1

/-- Contract view `Coconuts::young_coconut_balance`. -/
def Coconuts.young_coconut_balance (s : Coconuts) (account_id : AccountId) (now : Nat) :
    Except Err Nat :=
  match s.citizen account_id with
  | .error e => .error e
  | .ok c => c.young_coconut_balance now

/-- Contract view `Coconuts::brown_coconut_balance`. -/
def Coconuts.brown_coconut_balance (s : Coconuts) (account_id : AccountId) (now : Nat) :
    Except Err Nat :=
  match s.citizen account_id with
  | .error e => .error e
  | .ok c => c.brown_coconut_balance now

/-- States reachable from the empty ledger by the exposed mutating
operations.  The view operations (`is_citizen`, the balance queries,
`citizen_state`) return values without touching the state, and a failed
mutating operation reverts to the pre-call state, so neither adds an edge. -/
inductive Reachable : Coconuts → Prop where
  | init : Reachable Coconuts.default
  | create (s s' : Coconuts) (signer : AccountId) (now : Nat) :
      Reachable s → s.signer_create_citizen signer now = .ok s' → Reachable s'
  | xfer (s s' : Coconuts) (f t : AccountId) (qty now : Nat) :
      Reachable s → s.transfer_young_coconuts f t qty now = .ok s' → Reachable s'

/-- The 1:1 correspondence of claim C10: every stored citizen id has exactly
one account key mapping to it, and every mapped id is stored. -/
def OneToOne (s : Coconuts) : Prop :=
  (∀ id, (s.citizens id).isSome → ∃! k, s.accounts k = some id) ∧
  (∀ k id, s.accounts k = some id → (s.citizens id).isSome)

/-- Auxiliary invariant: every id the account map assigns is below the
counter. -/
def IdsBelowCounter (s : Coconuts) : Prop :=
  ∀ k id, s.accounts k = some id → id < s.next_citizen_id

def keyA : AccountId := "a"

def keyB : AccountId := "b"

/-- A citizen created at block 0 with zeroed counters. -/
def freshCitizen : Citizen :=
  { init_block_index := 0
    coconut_tree_count := 1
    young_coconut_adjustments := { sent := 0, received := 0 } }

/-- A ledger holding the single citizen `keyA` (id 0, created at block 0). -/
def stateA : Coconuts :=
  { accounts := fun k => if k = keyA then some 0 else none
    citizens := fun i => if i = 0 then some freshCitizen else none
    next_citizen_id := 1 }

/-- A ledger holding `keyA` (id 0) and `keyB` (id 1), both created at block 0. -/
def stateAB : Coconuts :=
  { accounts := fun k => if k = keyA then some 0 else if k = keyB then some 1 else none
    citizens := fun i => if i = 0 then some freshCitizen else
      if i = 1 then some freshCitizen else none
    next_citizen_id := 2 }

/-- Like `freshCitizen` but with the `sent` counter at `2 ^ 127`. -/
def bigSentCitizen : Citizen :=
  { init_block_index := 0
    coconut_tree_count := 1
    young_coconut_adjustments := { sent := 2 ^ 127, received := 0 } }

/-- `stateAB` with `keyA`'s record replaced by `bigSentCitizen`. -/
def stateBig : Coconuts :=
  { stateAB with
    citizens := fun i => if i = 0 then some bigSentCitizen else
      if i = 1 then some freshCitizen else none }

/-- The ledger produced by `stateAB.transfer_young_coconuts keyA keyB 3 20`:
id 0 has `sent = 3`, id 1 has `received = 3`. -/
def stateAB_after : Coconuts :=
  { accounts := stateAB.accounts
    citizens := fun i => if i = 1 then some ⟨0, 1, ⟨0, 3⟩⟩ else
      if i = 0 then some ⟨0, 1, ⟨3, 0⟩⟩ else stateAB.citizens i
    next_citizen_id := 2 }

/-- An empty ledger whose id counter already sits at `u64::max_value()`. -/
def stateMax : Coconuts :=
  { accounts := fun _ => none
    citizens := fun _ => none
    next_citizen_id := U64_MAX }

/-- Claim C1 counterexample evaluation.  Starting from two fresh citizens,
`keyA` transfers 3 to `keyB` at block 20 (after which `sent = 3`, matching the
claim's first step), then transfers 2 more.  The claim requires the `sent`
counter to grow by exactly 2, to 5; the source's
`sent += sent.checked_add(qty)` instead computes `3 + (3 + 2) = 8`. -/
theorem C1_sent_counter_eval :
    (stateAB.transfer_young_coconuts keyA keyB 3 20).bind
      (fun s1 => (s1.transfer_young_coconuts keyA keyB 2 20).bind
        (fun s2 => s2.citizen keyA)) =
    .ok { init_block_index := 0
          coconut_tree_count := 1
          young_coconut_adjustments := { sent := 8, received := 0 } } := by
  rfl

/-- Claim C2 counterexample evaluation.  With `keyA`'s `sent` counter at
`2 ^ 127`, a transfer of 0 passes every checked test (the inner
`sent.checked_add(0) = 2 ^ 127` does not overflow), but the outer unchecked
`+=` computes `2 ^ 127 + 2 ^ 127 = 2 ^ 128`, which wraps to 0 in the wasm
release build: the operation succeeds and persists the wrapped counter
instead of failing. -/
theorem C2_wrapping_eval :
    (stateBig.transfer_young_coconuts keyA keyB 0 20).bind
      (fun s1 => s1.citizen keyA) =
    .ok { init_block_index := 0
          coconut_tree_count := 1
          young_coconut_adjustments := { sent := 0, received := 0 } } := by
  rfl

/-- Claim C3 counterexample evaluation.  A self-transfer of 3 by `keyA`
(created at block 0, counters 0, block 20) succeeds, but the persisted record
has `sent = 0`, not `sent = 3`: the source loads two copies of the record,
updates `sent` on one and `received` on the other, and the second
`set_citizen` overwrites the first, losing the `sent` update. -/
theorem C3_self_transfer_eval :
    (stateA.transfer_young_coconuts keyA keyA 3 20).bind
      (fun s1 => s1.citizen keyA) =
    .ok { init_block_index := 0
          coconut_tree_count := 1
          young_coconut_adjustments := { sent := 0, received := 3 } } := by
  rfl

/-- Closed form of `baseline_coconuts`: the clock assertion, then the product
`(now - init) * tree_count` (the two `* COCONUTS_PER_BLOCK = 1` and
`INITIAL_COCONUTS = 0` steps are neutral), overflow-checked. -/
theorem baseline_eq (c : Citizen) (now : Nat) :
    c.baseline_coconuts now =
      if now < c.init_block_index then .error .clockAssert
      else if (now - c.init_block_index) * c.coconut_tree_count ≤ U128_MAX then
        .ok ((now - c.init_block_index) * c.coconut_tree_count)
      else .error .overflow := by
  by_cases h1 : now < c.init_block_index
  · simp [Citizen.baseline_coconuts, h1]
  · by_cases h2 : (now - c.init_block_index) * c.coconut_tree_count ≤ U128_MAX
    · simp [Citizen.baseline_coconuts, u128_checked_mul, u128_checked_add,
        COCONUTS_PER_BLOCK, INITIAL_COCONUTS, h1, h2]
    · simp [Citizen.baseline_coconuts, u128_checked_mul, u128_checked_add,
        COCONUTS_PER_BLOCK, INITIAL_COCONUTS, h1, h2]

/-- A successful baseline computation pins down its value and side
conditions. -/
theorem baseline_ok_elim {c : Citizen} {now b : Nat}
    (h : c.baseline_coconuts now = .ok b) :
    c.init_block_index ≤ now ∧
    b = (now - c.init_block_index) * c.coconut_tree_count ∧ b ≤ U128_MAX := by
  rw [baseline_eq] at h
  split at h
  · exact Except.noConfusion h
  · rename_i h1
    split at h
    · rename_i h2
      cases h
      exact ⟨Nat.not_lt.mp h1, rfl, h2⟩
    · exact Except.noConfusion h

/-- When the baseline succeeds, the brown balance is the baseline minus the
maturation window (truncated at zero). -/
theorem brown_of_baseline {c : Citizen} {now b : Nat}
    (h : c.baseline_coconuts now = .ok b) :
    c.brown_coconut_balance now = .ok (b - COCONUT_MATURATION_BLOCKS) := by
  have hle : b ≤ U128_MAX := (baseline_ok_elim h).2.2
  unfold Citizen.brown_coconut_balance
  simp only [h, u128_checked_mul, u128_saturating_sub, mul_one, COCONUTS_PER_BLOCK]
  rw [if_pos (le_trans (Nat.sub_le b COCONUT_MATURATION_BLOCKS) hle)]

/-- When the baseline succeeds, the young balance is the baseline minus the
brown balance. -/
theorem young_of_baseline {c : Citizen} {now b : Nat}
    (h : c.baseline_coconuts now = .ok b) :
    c.young_coconut_balance now = .ok (b - (b - COCONUT_MATURATION_BLOCKS)) := by
  unfold Citizen.young_coconut_balance
  simp only [h, brown_of_baseline h]
  rw [if_pos (Nat.sub_le b COCONUT_MATURATION_BLOCKS)]
  unfold u128_checked_sub
  rw [if_pos (Nat.sub_le b COCONUT_MATURATION_BLOCKS)]

/-- A successful brown balance forces a successful baseline. -/
theorem brown_ok_elim {c : Citizen} {t b : Nat}
    (h : c.brown_coconut_balance t = .ok b) :
    ∃ base, c.baseline_coconuts t = .ok base ∧ b = base - COCONUT_MATURATION_BLOCKS := by
  cases hbase : c.baseline_coconuts t with
  | error e =>
    unfold Citizen.brown_coconut_balance at h
    rw [hbase] at h
    exact Except.noConfusion h
  | ok base =>
    have h2 := brown_of_baseline hbase
    rw [h] at h2
    injection h2 with h3
    exact ⟨base, rfl, h3⟩

/-- A successful young balance forces a successful baseline. -/
theorem young_ok_elim {c : Citizen} {t y : Nat}
    (h : c.young_coconut_balance t = .ok y) :
    ∃ base, c.baseline_coconuts t = .ok base ∧
      y = base - (base - COCONUT_MATURATION_BLOCKS) := by
  cases hbase : c.baseline_coconuts t with
  | error e =>
    unfold Citizen.young_coconut_balance at h
    rw [hbase] at h
    exact Except.noConfusion h
  | ok base =>
    have h2 := young_of_baseline hbase
    rw [h] at h2
    injection h2 with h3
    exact ⟨base, rfl, h3⟩

/-- The balance computations read only `init_block_index` and
`coconut_tree_count`: the `Adjustments` field is never consulted. -/
theorem balances_ignore_adjustments (c c' : Citizen)
    (hi : c.init_block_index = c'.init_block_index)
    (htc : c.coconut_tree_count = c'.coconut_tree_count) (now : Nat) :
    c.young_coconut_balance now = c'.young_coconut_balance now ∧
    c.brown_coconut_balance now = c'.brown_coconut_balance now := by
  obtain ⟨i, tc, a⟩ := c
  obtain ⟨i', tc', a'⟩ := c'
  simp only at hi htc
  subst hi
  subst htc
  exact ⟨rfl, rfl⟩

/-- A successful `citizen` load exposes the two map lookups behind it. -/
theorem citizen_ok_elim {s : Coconuts} {k : AccountId} {c : Citizen}
    (h : s.citizen k = .ok c) :
    ∃ id, s.accounts k = some id ∧ s.citizens id = some c := by
  unfold Coconuts.citizen at h
  split at h
  · rename_i id heq
    split at h
    · rename_i c0 heq2
      cases h
      exact ⟨id, heq, heq2⟩
    · exact Except.noConfusion h
  · exact Except.noConfusion h

/-- A successful `set_citizen` rewrites exactly one citizen slot and leaves
the account map and the counter alone. -/
theorem set_citizen_ok_shape {s s2 : Coconuts} {k : AccountId} {c : Citizen}
    (h : s.set_citizen k c = .ok s2) :
    ∃ id, s.accounts k = some id ∧
      s2.accounts = s.accounts ∧
      s2.next_citizen_id = s.next_citizen_id ∧
      s2.citizens = fun i => if i = id then some c else s.citizens i := by
  unfold Coconuts.set_citizen at h
  split at h
  · rename_i id heq
    cases h
    exact ⟨id, heq, rfl, rfl, rfl⟩
  · exact Except.noConfusion h

/-- A successful transfer leaves the account map and the id counter alone and
rewrites citizen slots only in place: every slot is either untouched or holds
a record with the same `init_block_index` and `coconut_tree_count` as the
record it replaces (only the adjustments change). -/
theorem transfer_ok_shape {s s' : Coconuts} {f t : AccountId} {qty now : Nat}
    (h : s.transfer_young_coconuts f t qty now = .ok s') :
    s'.accounts = s.accounts ∧
    s'.next_citizen_id = s.next_citizen_id ∧
    ∀ i, s'.citizens i = s.citizens i ∨
      ∃ c c', s.citizens i = some c ∧ s'.citizens i = some c' ∧
        c'.init_block_index = c.init_block_index ∧
        c'.coconut_tree_count = c.coconut_tree_count := by
  unfold Coconuts.transfer_young_coconuts at h
  split at h <;> try exact Except.noConfusion h
  split at h <;> try exact Except.noConfusion h
  split at h <;> try exact Except.noConfusion h
  split at h <;> try exact Except.noConfusion h
  split at h <;> try exact Except.noConfusion h
  split at h <;> try exact Except.noConfusion h
  split at h <;> try exact Except.noConfusion h
  split at h <;> try exact Except.noConfusion h
  split at h <;> try exact Except.noConfusion h
  split at h <;> try exact Except.noConfusion h
  dsimp only [] at h
  split at h <;> try exact Except.noConfusion h
  rename_i x1 hisf x2 hist x3 cf hcf x4 ct hct x5 bf hbf x6 bt hbt hsub hadd
    x7 st hst x8 rc hrc x9 s1 hset1
  obtain ⟨id1, ha1, hc1⟩ := citizen_ok_elim hcf
  obtain ⟨id2, ha2, hc2⟩ := citizen_ok_elim hct
  obtain ⟨id1b, ha1b, hacc1, hnext1, hcit1⟩ := set_citizen_ok_shape hset1
  obtain ⟨id2b, ha2b, hacc2, hnext2, hcit2⟩ := set_citizen_ok_shape h
  rw [ha1] at ha1b
  injection ha1b with hid1
  subst hid1
  rw [hacc1, ha2] at ha2b
  injection ha2b with hid2
  subst hid2
  refine ⟨by rw [hacc2, hacc1], by rw [hnext2, hnext1], ?_⟩
  intro i
  simp only [hcit1] at hcit2
  by_cases h2i : i = id2
  · subst h2i
    right
    refine ⟨ct,
      { init_block_index := ct.init_block_index
        coconut_tree_count := ct.coconut_tree_count
        young_coconut_adjustments :=
          { sent := ct.young_coconut_adjustments.sent
            received := u128_wrapping_add ct.young_coconut_adjustments.received rc } },
      hc2, ?_, rfl, rfl⟩
    rw [hcit2]
    simp
  · by_cases h1i : i = id1
    · subst h1i
      right
      refine ⟨cf,
        { init_block_index := cf.init_block_index
          coconut_tree_count := cf.coconut_tree_count
          young_coconut_adjustments :=
            { sent := u128_wrapping_add cf.young_coconut_adjustments.sent st
              received := cf.young_coconut_adjustments.received } },
        hc1, ?_, rfl, rfl⟩
      rw [hcit2]
      simp [h2i]
    · left
      rw [hcit2]
      simp [h1i, h2i]

/-- A successful registration requires the signer to be unmapped and the next
id slot to be empty, inserts exactly that one mapping and that one record,
and bumps the counter. -/
theorem create_ok_shape {s s' : Coconuts} {signer : AccountId} {now : Nat}
    (h : s.signer_create_citizen signer now = .ok s') :
    s.accounts signer = none ∧
    s.citizens s.next_citizen_id = none ∧
    s'.accounts = (fun k => if k = signer then some s.next_citizen_id else s.accounts k) ∧
    s'.citizens = (fun i => if i = s.next_citizen_id then some (Citizen.default now)
      else s.citizens i) ∧
    s'.next_citizen_id = s.next_citizen_id + 1 := by
  unfold Coconuts.signer_create_citizen at h
  split at h <;> try exact Except.noConfusion h
  rename_i x hisc
  dsimp only [] at h
  split at h <;> try exact Except.noConfusion h
  rename_i hslot
  split at h <;> try exact Except.noConfusion h
  rename_i hlt
  cases h
  refine ⟨?_, ?_, rfl, rfl, rfl⟩
  · unfold Coconuts.is_citizen at hisc
    split at hisc
    · split at hisc <;> simp at hisc
    · rename_i heqa
      exact heqa
  · exact Option.not_isSome_iff_eq_none.mp (by simpa using hslot)

/-- The inductive invariant for claim C10: the 1:1 correspondence plus the
id-counter bound that makes registration preserve it. -/
theorem reachable_inv : ∀ s, Reachable s → OneToOne s ∧ IdsBelowCounter s := by
  intro s h
  induction h with
  | init =>
    refine ⟨⟨?_, ?_⟩, ?_⟩
    · intro id hsome
      simp [Coconuts.default] at hsome
    · intro k id hk
      simp [Coconuts.default] at hk
    · intro k id hk
      simp [Coconuts.default] at hk
  | create s s' signer now hr hok ih =>
    obtain ⟨⟨h1, h2⟩, h3⟩ := ih
    obtain ⟨hfree, hslot, hacc, hcit, hnext⟩ := create_ok_shape hok
    refine ⟨⟨?_, ?_⟩, ?_⟩
    · intro id hsome
      simp only [hcit] at hsome
      by_cases hid : id = s.next_citizen_id
      · subst hid
        refine ⟨signer, ?_, ?_⟩
        · simp only [hacc]
          simp
        · intro k' hk'
          simp only [hacc] at hk'
          by_cases hk : k' = signer
          · exact hk
          · rw [if_neg hk] at hk'
            exact absurd (h3 k' _ hk') (lt_irrefl _)
      · rw [if_neg hid] at hsome
        obtain ⟨k0, hk0, hk0uniq⟩ := h1 id hsome
        refine ⟨k0, ?_, ?_⟩
        · simp only [hacc]
          have hks : k0 ≠ signer := by
            intro e
            subst e
            rw [hfree] at hk0
            exact Option.noConfusion hk0
          rw [if_neg hks]
          exact hk0
        · intro k' hk'
          simp only [hacc] at hk'
          by_cases hk : k' = signer
          · subst hk
            rw [if_pos rfl] at hk'
            injection hk' with he
            exact absurd he.symm hid
          · rw [if_neg hk] at hk'
            exact hk0uniq k' hk'
    · intro k id hk
      simp only [hacc] at hk
      simp only [hcit]
      by_cases hks : k = signer
      · subst hks
        rw [if_pos rfl] at hk
        injection hk with he
        rw [← he]
        simp
      · rw [if_neg hks] at hk
        have hs := h2 k id hk
        by_cases hid : id = s.next_citizen_id
        · subst hid
          rw [hslot] at hs
          simp at hs
        · rw [if_neg hid]
          exact hs
    · intro k id hk
      simp only [hacc] at hk
      rw [hnext]
      by_cases hks : k = signer
      · subst hks
        rw [if_pos rfl] at hk
        injection hk with he
        subst he
        exact Nat.lt_succ_self _
      · rw [if_neg hks] at hk
        exact Nat.lt_succ_of_lt (h3 k id hk)
  | xfer s s' f t qty now hr hok ih =>
    obtain ⟨⟨h1, h2⟩, h3⟩ := ih
    obtain ⟨hacc, hnext, hcit⟩ := transfer_ok_shape hok
    refine ⟨⟨?_, ?_⟩, ?_⟩
    · intro id hsome
      have hsome0 : (s.citizens id).isSome := by
        rcases hcit id with heq | ⟨c, c', hc, hc', -, -⟩
        · rw [heq] at hsome
          exact hsome
        · simp [hc]
      obtain ⟨k0, hk0, huniq⟩ := h1 id hsome0
      refine ⟨k0, ?_, ?_⟩
      · simp only [hacc]
        exact hk0
      · intro k' hk'
        simp only [hacc] at hk'
        exact huniq k' hk'
    · intro k id hk
      simp only [hacc] at hk
      have hs := h2 k id hk
      rcases hcit id with heq | ⟨c, c', hc, hc', -, -⟩
      · rw [heq]
        exact hs
      · simp [hc']
    · intro k id hk
      simp only [hacc] at hk
      rw [hnext]
      exact h3 k id hk

/-- Claim C10: in every state reachable from the empty ledger by the exposed
operations, the account map and the citizen store are in 1:1 correspondence:
every stored citizen id has exactly one account key mapping to it, and every
mapped account key points at a stored citizen. -/
theorem C10_account_citizen_bijection (s : Coconuts) (h : Reachable s) :
    OneToOne s :=
  (reachable_inv s h).1

/-- Witness for C10 at the empty ledger. -/
theorem C10_witness : OneToOne Coconuts.default :=
  C10_account_citizen_bijection Coconuts.default Reachable.init

/-- Claim C6: the balance computations are functions of `init_block_index`,
`coconut_tree_count` and the clock only.  First conjunct: changing the
`adjustments` field changes neither balance.  Second conjunct: a successful
transfer leaves the displayed young and brown balances of every account (in
particular both parties) unchanged at every clock value.  Third conjunct: a
successful young balance never exceeds
`COCONUT_MATURATION_BLOCKS * coconut_tree_count`. -/
theorem C6_balances_frame :
    (∀ (i tc : Nat) (a a' : Adjustments) (now : Nat),
      Citizen.young_coconut_balance ⟨i, tc, a⟩ now =
        Citizen.young_coconut_balance ⟨i, tc, a'⟩ now ∧
      Citizen.brown_coconut_balance ⟨i, tc, a⟩ now =
        Citizen.brown_coconut_balance ⟨i, tc, a'⟩ now) ∧
    (∀ (s s' : Coconuts) (f t : AccountId) (qty now : Nat),
      s.transfer_young_coconuts f t qty now = .ok s' →
      ∀ (k : AccountId) (t' : Nat),
        s'.young_coconut_balance k t' = s.young_coconut_balance k t' ∧
        s'.brown_coconut_balance k t' = s.brown_coconut_balance k t') ∧
    (∀ (c : Citizen) (now y : Nat), c.young_coconut_balance now = .ok y →
      y ≤ COCONUT_MATURATION_BLOCKS * c.coconut_tree_count) := by
  refine ⟨?_, ?_, ?_⟩
  · intro i tc a a' now
    exact balances_ignore_adjustments ⟨i, tc, a⟩ ⟨i, tc, a'⟩ rfl rfl now
  · intro s s' f t qty now htr k t'
    obtain ⟨hacc, hnext, hcit⟩ := transfer_ok_shape htr
    have hkey : s'.citizen k = s.citizen k ∨
        ∃ c c', s.citizen k = .ok c ∧ s'.citizen k = .ok c' ∧
          c'.init_block_index = c.init_block_index ∧
          c'.coconut_tree_count = c.coconut_tree_count := by
      unfold Coconuts.citizen
      rw [hacc]
      cases hak : s.accounts k with
      | none => exact Or.inl rfl
      | some id =>
        dsimp only []
        rcases hcit id with heq | ⟨c, c', hc, hc', hi, htc2⟩
        · rw [heq]
          exact Or.inl rfl
        · rw [hc, hc']
          exact Or.inr ⟨c, c', rfl, rfl, hi, htc2⟩
    unfold Coconuts.young_coconut_balance Coconuts.brown_coconut_balance
    rcases hkey with heq | ⟨c, c', hc, hc', hi, htc2⟩
    · rw [heq]
      exact ⟨rfl, rfl⟩
    · rw [hc, hc']
      dsimp only []
      exact balances_ignore_adjustments c' c hi htc2 t'
  · intro c now y hy
    obtain ⟨base, hbase, hyeq⟩ := young_ok_elim hy
    obtain ⟨-, hbform, -⟩ := baseline_ok_elim hbase
    rcases Nat.eq_zero_or_pos c.coconut_tree_count with h0 | h1
    · rw [h0, Nat.mul_zero] at hbform
      rw [COCONUT_MATURATION_BLOCKS] at hyeq
      omega
    · rw [COCONUT_MATURATION_BLOCKS] at hyeq ⊢
      have h10 : (10 : Nat) ≤ 10 * c.coconut_tree_count := by omega
      omega

/-- Witness for C6: in the two-citizen ledger, the transfer of 3 at block 20
leaves the sender's young balance at 10, both for the adjusted record and
through the state query, and 10 is within the window bound. -/
theorem C6_witness :
    (Citizen.young_coconut_balance ⟨0, 1, ⟨5, 0⟩⟩ 20 =
       Citizen.young_coconut_balance ⟨0, 1, ⟨0, 0⟩⟩ 20 ∧
     Citizen.brown_coconut_balance ⟨0, 1, ⟨5, 0⟩⟩ 20 =
       Citizen.brown_coconut_balance ⟨0, 1, ⟨0, 0⟩⟩ 20) ∧
    (stateAB_after.young_coconut_balance keyA 20 = stateAB.young_coconut_balance keyA 20 ∧
     stateAB_after.brown_coconut_balance keyA 20 = stateAB.brown_coconut_balance keyA 20) ∧
    (10 : Nat) ≤ COCONUT_MATURATION_BLOCKS * freshCitizen.coconut_tree_count :=
  ⟨C6_balances_frame.1 0 1 ⟨5, 0⟩ ⟨0, 0⟩ 20,
   C6_balances_frame.2.1 stateAB stateAB_after keyA keyB 3 20 rfl keyA 20,
   C6_balances_frame.2.2 freshCitizen 20 10 rfl⟩

/-- `set_citizen` never fails with `insufficientBalance`: its only panic is
the missing-account one. -/
theorem set_citizen_no_insufficient (s : Coconuts) (k : AccountId) (c : Citizen) :
    s.set_citizen k c ≠ .error .insufficientBalance := by
  unfold Coconuts.set_citizen
  split <;> simp

/-- Claim C5: registering a fresh signer while the id counter already sits at
`u64::max_value()` fails with the id-space-exhaustion assertion; the NEAR
panic reverts the tentative map inserts, so the persisted citizen store,
account map and counter are the pre-call ones. -/
theorem C5_id_space_exhausted (s : Coconuts) (signer : AccountId) (now : Nat)
    (hmax : s.next_citizen_id = U64_MAX)
    (hfree : s.accounts signer = none)
    (hslot : s.citizens U64_MAX = none) :
    s.signer_create_citizen signer now = .error .idSpaceExhausted := by
  unfold Coconuts.signer_create_citizen Coconuts.is_citizen
  rw [hfree]
  simp only [hmax, hslot, Option.isSome_none, Bool.false_eq_true, if_false, lt_irrefl, if_neg]

/-- Witness for C5 at a concrete ledger. -/
theorem C5_witness :
    stateMax.signer_create_citizen keyA 0 = .error .idSpaceExhausted :=
  C5_id_space_exhausted stateMax keyA 0 rfl rfl rfl

/-- Claim C4: a transfer between two registered citizens (whose balance
computations succeed) fails with the insufficient-balance panic exactly when
the requested amount exceeds the sender's young balance at the current
clock; an `.error` result means the call reverted, leaving both persisted
records at their pre-call values. -/
theorem C4_insufficient_balance (s : Coconuts) (f t : AccountId) (qty now : Nat)
    (cf ct : Citizen) (bf bt : Nat)
    (hf : s.is_citizen f = .ok true) (ht : s.is_citizen t = .ok true)
    (hcf : s.citizen f = .ok cf) (hct : s.citizen t = .ok ct)
    (hbf : cf.young_coconut_balance now = .ok bf)
    (hbt : ct.young_coconut_balance now = .ok bt) :
    s.transfer_young_coconuts f t qty now = .error .insufficientBalance ↔ bf < qty := by
  unfold Coconuts.transfer_young_coconuts
  simp only [hf, ht, hcf, hct, hbf, hbt]
  by_cases hq : bf < qty
  · refine iff_of_true ?_ hq
    have hnone : u128_checked_sub bf qty = none := by
      unfold u128_checked_sub
      rw [if_neg (Nat.not_le.mpr hq)]
    simp [hnone]
  · refine iff_of_false ?_ hq
    intro hcontra
    have hsome : u128_checked_sub bf qty = some (bf - qty) := by
      unfold u128_checked_sub
      rw [if_pos (Nat.not_lt.mp hq)]
    rw [hsome] at hcontra
    simp only [Option.isNone_some, Bool.false_eq_true, if_false] at hcontra
    split at hcontra
    · simp at hcontra
    · split at hcontra
      · simp at hcontra
      · split at hcontra
        · simp at hcontra
        · split at hcontra
          · rename_i heq
            simp only [Except.error.injEq] at hcontra
            subst hcontra
            exact set_citizen_no_insufficient _ _ _ heq
          · exact set_citizen_no_insufficient _ _ _ hcontra

/-- Witness for C4: `keyA` has young balance 5 at block 5 and a transfer of 7
fails with the insufficient-balance panic. -/
theorem C4_witness :
    stateAB.transfer_young_coconuts keyA keyB 7 5 = .error .insufficientBalance :=
  (C4_insufficient_balance stateAB keyA keyB 7 5 freshCitizen freshCitizen 5 5
    rfl rfl rfl rfl rfl rfl).mpr (by decide)

/-- Claim C7: whenever the balance computations of a citizen succeed at a
clock value `now ≥ init_block_index`, young plus brown equals the baseline,
and the baseline is `(now - init) * tree_count * COCONUTS_PER_BLOCK`. -/
theorem C7_young_plus_brown_eq_baseline (c : Citizen) (now b y br : Nat)
    (ht : c.init_block_index ≤ now)
    (hb : c.baseline_coconuts now = .ok b)
    (hy : c.young_coconut_balance now = .ok y)
    (hbr : c.brown_coconut_balance now = .ok br) :
    y + br = b ∧
    b = (now - c.init_block_index) * c.coconut_tree_count * COCONUTS_PER_BLOCK := by
  have hform := baseline_ok_elim hb
  have hbr2 := brown_of_baseline hb
  rw [hbr] at hbr2
  injection hbr2 with hbr3
  have hy2 := young_of_baseline hb
  rw [hy] at hy2
  injection hy2 with hy3
  constructor
  · omega
  · rw [COCONUTS_PER_BLOCK, mul_one]
    exact hform.2.1

/-- Witness for C7 at block 11 for a citizen created at block 0. -/
theorem C7_witness :
    (10 : Nat) + 1 = 11 ∧
    (11 : Nat) = (11 - freshCitizen.init_block_index) * freshCitizen.coconut_tree_count *
      COCONUTS_PER_BLOCK :=
  C7_young_plus_brown_eq_baseline freshCitizen 11 11 10 1 (by decide) rfl rfl rfl

/-- Claim C8: the brown balance is non-decreasing in the clock value, and it
is strictly positive exactly when the baseline exceeds the maturation
window. -/
theorem C8_brown_monotone_and_positive :
    (∀ (c : Citizen) (t t' b b' : Nat), t ≤ t' →
      c.brown_coconut_balance t = .ok b → c.brown_coconut_balance t' = .ok b' →
      b ≤ b') ∧
    (∀ (c : Citizen) (t b base : Nat),
      c.brown_coconut_balance t = .ok b → c.baseline_coconuts t = .ok base →
      (0 < b ↔ COCONUT_MATURATION_BLOCKS < base)) := by
  constructor
  · intro c t t' b b' htt hb hb'
    obtain ⟨base, hbase, hbeq⟩ := brown_ok_elim hb
    obtain ⟨base', hbase', hbeq'⟩ := brown_ok_elim hb'
    obtain ⟨-, hbform, -⟩ := baseline_ok_elim hbase
    obtain ⟨-, hbform', -⟩ := baseline_ok_elim hbase'
    have hmul : (t - c.init_block_index) * c.coconut_tree_count ≤
        (t' - c.init_block_index) * c.coconut_tree_count :=
      Nat.mul_le_mul_right _ (Nat.sub_le_sub_right htt _)
    omega
  · intro c t b base hb hbase
    obtain ⟨base0, hbase0, hbeq⟩ := brown_ok_elim hb
    rw [hbase] at hbase0
    injection hbase0 with hbase1
    rw [COCONUT_MATURATION_BLOCKS] at hbeq ⊢
    omega

/-- Witness for C8: for a citizen created at block 0, the brown balance grows
from 1 (block 11) to 10 (block 20), and at block 11 it is positive with the
baseline 11 above the window. -/
theorem C8_witness :
    (1 : Nat) ≤ 10 ∧ ((0 : Nat) < 1 ↔ COCONUT_MATURATION_BLOCKS < 11) :=
  ⟨C8_brown_monotone_and_positive.1 freshCitizen 11 20 1 10 (by decide) rfl rfl,
   C8_brown_monotone_and_positive.2 freshCitizen 11 1 11 rfl rfl⟩

/-- Claim C9: concrete accrual scenario.  A citizen created at block 0 has
young balance 1 and brown balance 0 at block 1, young 10 and brown 1 at
block 11, and young 10 and brown 10 at block 20. -/
theorem C9_accrual_scenario :
    freshCitizen.young_coconut_balance 1 = .ok 1 ∧
    freshCitizen.brown_coconut_balance 1 = .ok 0 ∧
    freshCitizen.young_coconut_balance 11 = .ok 10 ∧
    freshCitizen.brown_coconut_balance 11 = .ok 1 ∧
    freshCitizen.young_coconut_balance 20 = .ok 10 ∧
    freshCitizen.brown_coconut_balance 20 = .ok 10 := by
  refine ⟨rfl, rfl, rfl, rfl, rfl, rfl⟩
